import Mathlib

/-!
Shallow embedding of the asset-manager quote-resolution and valuation pipeline.

Conventions used throughout this development:
- JavaScript numbers are modelled as rationals (`ℚ`), idealizing IEEE-754
  doubles; every arithmetic identity proved here is exact.
- JavaScript's `x || y` fallback applied to a number `x` is modelled as
  `if x = 0 then y else x` (0 is the only falsy rational), and applied to a
  possibly-absent value it is modelled on `Option`.
- JavaScript `Map` objects are modelled as association lists
  (`List (key × value)`): lookup returns the first binding, updates replace
  the first binding in place, and fresh keys are appended at the end, which
  matches `Map` insertion-order semantics.
- Fallible external calls (network fetches, the persistence store) are
  modelled by passing their outcome in as an explicit argument
  (`Except Unit _` for throwing calls, a payload outcome type for HTTP
  responses), so the orchestration logic stays a pure function of those
  outcomes.
-/

/-! ## Data model (src/types) -/

/-- A holding row, as read from the persistence store (`Holding` in types). -/
structure Holding where
  id : String
  symbol : String
  name : String
  category : String
  quantity : ℚ
  avgCost : ℚ
  currency : String
deriving Repr, DecidableEq

/-- An entry of the quote map handed to the calculation layer: a price
paired with its currency. -/
structure PriceEntry where
  price : ℚ
  currency : String
deriving Repr, DecidableEq

/-- The quote map from symbol to price entry. -/
abbrev PriceMap := List (String × PriceEntry)

/-- A quote produced by the stock-price fetcher (`StockQuote` in stockApi). -/
structure StockQuote where
  symbol : String
  name : String
  price : ℚ
  previousClose : ℚ
  change : ℚ
  changePercent : ℚ
  currency : String
deriving Repr, DecidableEq

/-- An `OtherAsset` row: a non-tradable declared asset. -/
structure OtherAsset where
  type : String
  name : String
  value : ℚ
  currency : String
deriving Repr, DecidableEq

/-- A transaction row; `dateYear` models `new Date(t.date).getFullYear()`. -/
structure Transaction where
  dateYear : ℤ
  type : String
  realizedPL : Option ℚ
  currency : String
deriving Repr, DecidableEq

/-- A dividend row; `dateYear` models `new Date(d.date).getFullYear()`. -/
structure Dividend where
  dateYear : ℤ
  amount : ℚ
  currency : String
deriving Repr, DecidableEq

/-! ## Exchange-rate resolver (src/lib/exchangeRate.ts) -/

/-- The record returned by the rate fetcher (`ExchangeRateData`). -/
structure ExchangeRateData where
  rate : ℚ
  date : String
  source : String
deriving Repr, DecidableEq

/-- Outcome of one HTTP fetch: the call threw, the response was not ok,
or it returned a parsed JSON payload. -/
inductive FetchOutcome (α : Type) where
  | err : FetchOutcome α
  | notOk : FetchOutcome α
  | ok : α → FetchOutcome α
deriving Repr, DecidableEq

/-- Parsed payload of the primary provider (exchangerate.host): the
`success` flag, the `rates.JPY` field (none models a missing field) and the
date. -/
structure PrimaryRatePayload where
  success : Bool
  ratesJPY : Option ℚ
  date : String
deriving Repr, DecidableEq

/-- Parsed payload of the secondary provider (frankfurter.app): the
`rates.JPY` field and the date. -/
structure SecondaryRatePayload where
  ratesJPY : Option ℚ
  date : String
deriving Repr, DecidableEq

/-- Truthiness of `data.rates?.JPY`: present and nonzero. -/
def jpyTruthy : Option ℚ → Bool
  | none => false
  | some r => r ≠ 0

/-- Embedding of `fetchFromAlternativeApi` (exchangeRate.ts lines 41-68). -/
def fetchFromAlternativeApi : FetchOutcome SecondaryRatePayload → Option ExchangeRateData
  | .err => none
  | .notOk => none
  | .ok p =>
    if jpyTruthy p.ratesJPY then
      some { rate := p.ratesJPY.getD 0, date := p.date, source := "frankfurter.app" }
    else
      none

/-- Embedding of `fetchUsdJpyRate` (exchangeRate.ts lines 10-38), as a function
of the two providers' fetch outcomes. -/
def fetchUsdJpyRate (primary : FetchOutcome PrimaryRatePayload)
    (secondary : FetchOutcome SecondaryRatePayload) : Option ExchangeRateData :=
  match primary with
  | .err => fetchFromAlternativeApi secondary
  | .notOk => fetchFromAlternativeApi secondary
  | .ok p =>
    if p.success && jpyTruthy p.ratesJPY then
      some { rate := p.ratesJPY.getD 0, date := p.date, source := "exchangerate.host" }
    else
      fetchFromAlternativeApi secondary

/-- Embedding of the rate-resolution step of the portfolio route
(route.ts lines 71-81): start from the (150, "default") fallback and take the
fetcher's result when it is non-null. -/
def resolveRateInRoute (primary : FetchOutcome PrimaryRatePayload)
    (secondary : FetchOutcome SecondaryRatePayload) : ℚ × String :=
  match fetchUsdJpyRate primary secondary with
  | some rd => (rd.rate, rd.source)
  | none => (150, "default")

/-- The primary provider failed: it threw, responded not-ok, or its payload
was not `success` with a truthy `rates.JPY`. -/
def primaryFails : FetchOutcome PrimaryRatePayload → Bool
  | .err => true
  | .notOk => true
  | .ok p => !(p.success && jpyTruthy p.ratesJPY)

/-- The secondary provider failed: it threw, responded not-ok, or its payload
had no truthy `rates.JPY`. -/
def secondaryFails : FetchOutcome SecondaryRatePayload → Bool
  | .err => true
  | .notOk => true
  | .ok p => !(jpyTruthy p.ratesJPY)

/-- Embedding of `convertUsdToJpy` (exchangeRate.ts line 71). -/
def convertUsdToJpy (usdAmount : ℚ) (rate : ℚ) : ℚ := usdAmount * rate

/-! ## Valuation engine (src/lib/calculations) -/

/-- An enriched holding as produced by `calculateHoldingsValue`. -/
structure EnrichedHolding where
  holding : Holding
  currentPrice : ℚ
  totalValue : ℚ
  unrealizedPL : ℚ
  unrealizedPLPercent : ℚ
deriving Repr, DecidableEq

/-- The current price chosen for a holding:
`prices.get(holding.symbol)?.price || holding.avgCost`. -/
def currentPriceOf (prices : PriceMap) (h : Holding) : ℚ :=
  match prices.lookup h.symbol with
  | some pd => if pd.price = 0 then h.avgCost else pd.price
  | none => h.avgCost

/-- The body of the `holdings.map` in `calculateHoldingsValue`
(calculations lines 200-222). -/
def enrichHolding (prices : PriceMap) (h : Holding) : EnrichedHolding :=
  let currentPrice := currentPriceOf prices h
  let totalValue := currentPrice * h.quantity
  let costBasis := h.avgCost * h.quantity
  let unrealizedPL := totalValue - costBasis
  { holding := h
    currentPrice := currentPrice
    totalValue := totalValue
    unrealizedPL := unrealizedPL
    unrealizedPLPercent := if 0 < costBasis then unrealizedPL / costBasis * 100 else 0 }

/-- The JPY value of one holding, as accumulated into `totalJPY`:
USD values are converted at the resolved rate. -/
def holdingValueJPY (prices : PriceMap) (rate : ℚ) (h : Holding) : ℚ :=
  let totalValue := currentPriceOf prices h * h.quantity
  if h.currency = "USD" then convertUsdToJpy totalValue rate else totalValue

/-- Embedding of `calculateHoldingsValue` (calculations lines 193-225). -/
def calculateHoldingsValue (holdings : List Holding) (prices : PriceMap)
    (usdJpyRate : ℚ) : List EnrichedHolding × ℚ :=
  (holdings.map (enrichHolding prices),
   (holdings.map (holdingValueJPY prices usdJpyRate)).sum)

/-- Embedding of `calculateOtherAssetsValue` (calculations lines 228-238). -/
def calculateOtherAssetsValue (assets : List OtherAsset) (usdJpyRate : ℚ) : ℚ :=
  (assets.map (fun a =>
    if a.currency = "USD" then convertUsdToJpy a.value usdJpyRate else a.value)).sum

/-- Embedding of `calculateYearRealizedPL` (calculations lines 241-256). -/
def calculateYearRealizedPL (transactions : List Transaction) (year : ℤ)
    (usdJpyRate : ℚ) : ℚ :=
  ((transactions.filter (fun t => t.dateYear = year && t.type = "sell")).map (fun t =>
    if t.currency = "USD" then convertUsdToJpy (t.realizedPL.getD 0) usdJpyRate
    else t.realizedPL.getD 0)).sum

/-- Embedding of `calculateYearDividends` (calculations lines 259-274). -/
def calculateYearDividends (dividends : List Dividend) (year : ℤ)
    (usdJpyRate : ℚ) : ℚ :=
  ((dividends.filter (fun d => d.dateYear = year)).map (fun d =>
    if d.currency = "USD" then convertUsdToJpy d.amount usdJpyRate else d.amount)).sum

/-! ## Category summary (src/lib/calculations, lines 277-327) -/

/-- The label/color table `CATEGORY_CONFIG` (calculations lines 180-190). -/
def categoryConfig : String → Option (String × String)
  | "domestic_stock" => some ("国内株式", "#6366f1")
  | "us_stock" => some ("米国株式", "#22c55e")
  | "mutual_fund" => some ("投資信託", "#f59e0b")
  | "cash" => some ("預金・現金", "#3b82f6")
  | "bond" => some ("債券", "#8b5cf6")
  | "real_estate" => some ("不動産", "#ec4899")
  | "crypto" => some ("暗号資産", "#f97316")
  | "insurance" => some ("保険", "#14b8a6")
  | "pension" => some ("年金", "#64748b")
  | _ => none

/-- A category summary row (`CategorySummary` in types). -/
structure CategorySummary where
  category : String
  label : String
  value : ℚ
  valueJPY : ℚ
  percentage : ℚ
  color : String
deriving Repr, DecidableEq

/-- Replace the first binding of `k` in place, appending a fresh binding at
the end, like `Map.set`. -/
def alistSet (m : List (String × ℚ)) (k : String) (v : ℚ) : List (String × ℚ) :=
  match m with
  | [] => [(k, v)]
  | (k0, v0) :: rest => if k0 = k then (k, v) :: rest else (k0, v0) :: alistSet rest k v

/-- One step of the accumulation loops:
`const existing = categoryTotals.get(key) || 0; categoryTotals.set(key, existing + add)`. -/
def accumulateTotal (m : List (String × ℚ)) (k : String) (add : ℚ) : List (String × ℚ) :=
  alistSet m k ((m.lookup k).getD 0 + add)

/-- The `categoryTotals` map of `generateCategorySummary`: holdings summed by
category, then other assets summed by type (calculations lines 283-306). -/
def categoryTotalsOf (holdings : List Holding) (otherAssets : List OtherAsset)
    (prices : PriceMap) (usdJpyRate : ℚ) : List (String × ℚ) :=
  let m1 := holdings.foldl
    (fun m h => accumulateTotal m h.category (holdingValueJPY prices usdJpyRate h)) []
  otherAssets.foldl
    (fun m a => accumulateTotal m a.type
      (if a.currency = "USD" then convertUsdToJpy a.value usdJpyRate else a.value)) m1

/-- Embedding of `generateCategorySummary` (calculations lines 277-327):
percentages over the grand total, then sort by value descending. -/
def generateCategorySummary (holdings : List Holding) (otherAssets : List OtherAsset)
    (prices : PriceMap) (usdJpyRate : ℚ) : List CategorySummary :=
  let m := categoryTotalsOf holdings otherAssets prices usdJpyRate
  let grandTotal := (m.map (fun p => p.2)).sum
  let summaries := m.map (fun p =>
    let config := (categoryConfig p.1).getD (p.1, "#888")
    { category := p.1
      label := config.1
      value := p.2
      valueJPY := p.2
      percentage := if 0 < grandTotal then p.2 / grandTotal * 100 else 0
      color := config.2 })
  summaries.mergeSort (fun a b => decide (b.value ≤ a.value))

/-! ## Portfolio summary (src/lib/calculations, lines 330-390) -/

/-- The `PortfolioSummary` record (types). -/
structure PortfolioSummary where
  totalValue : ℚ
  totalValueJPY : ℚ
  previousDayValue : ℚ
  dayChange : ℚ
  dayChangePercent : ℚ
  totalUnrealizedPL : ℚ
  totalUnrealizedPLPercent : ℚ
  yearRealizedPL : ℚ
  yearDividends : ℚ
deriving Repr, DecidableEq

/-- Embedding of `generatePortfolioSummary` (calculations lines 330-390);
`currentYear` models `new Date().getFullYear()`. -/
def generatePortfolioSummary (holdings : List Holding) (otherAssets : List OtherAsset)
    (transactions : List Transaction) (dividends : List Dividend)
    (prices : PriceMap) (previousPrices : PriceMap) (usdJpyRate : ℚ)
    (currentYear : ℤ) : PortfolioSummary :=
  let r := calculateHoldingsValue holdings prices usdJpyRate
  let enrichedHoldings := r.1
  let holdingsTotal := r.2
  let otherAssetsTotal := calculateOtherAssetsValue otherAssets usdJpyRate
  let totalValue := holdingsTotal + otherAssetsTotal
  let previousHoldingsTotal := (calculateHoldingsValue holdings previousPrices usdJpyRate).2
  let previousDayValue := previousHoldingsTotal + otherAssetsTotal
  let dayChange := totalValue - previousDayValue
  let totalCostBasis := (enrichedHoldings.map (fun e =>
    if e.holding.currency = "USD"
    then convertUsdToJpy (e.holding.avgCost * e.holding.quantity) usdJpyRate
    else e.holding.avgCost * e.holding.quantity)).sum
  let totalUnrealizedPL := holdingsTotal - totalCostBasis
  { totalValue := totalValue
    totalValueJPY := totalValue
    previousDayValue := previousDayValue
    dayChange := dayChange
    dayChangePercent := if 0 < previousDayValue then dayChange / previousDayValue * 100 else 0
    totalUnrealizedPL := totalUnrealizedPL
    totalUnrealizedPLPercent :=
      if 0 < totalCostBasis then totalUnrealizedPL / totalCostBasis * 100 else 0
    yearRealizedPL := calculateYearRealizedPL transactions currentYear usdJpyRate
    yearDividends := calculateYearDividends dividends currentYear usdJpyRate }

/-! ## NAV extractor (src/lib/stockApi.ts, `fetchMutualFundNAV` lines 141-165)

The source applies five JavaScript regular expressions to the fetched HTML.
Each of those expressions is a linear sequence of literal fragments and
greedy character-class repetitions with a single capturing group, so they are
embedded as item lists run by a backtracking matcher with JavaScript
semantics: the scan tries each start position left to right, and a greedy
repetition consumes the longest class run first and backs off while the rest
of the items fail. -/

/-- One item of an embedded pattern: a literal fragment, a greedy class
repetition (zero or more), or the greedy one-or-more capturing group. -/
inductive RItem where
  | lit : List Char → RItem
  | star : (Char → Bool) → RItem
  | cap : (Char → Bool) → RItem

/-- Consume an exact literal fragment from the front of the input. -/
def consumeLit : List Char → List Char → Option (List Char)
  | [], s => some s
  | _ :: _, [] => none
  | l :: ls, c :: cs => if l = c then consumeLit ls cs else none

/-- First non-`none` element of a list of attempts. -/
def firstSome {α : Type} : List (Option α) → Option α
  | [] => none
  | some a :: _ => some a
  | none :: rest => firstSome rest

/-- Run a pattern against the input front, returning the text of the single
capturing group on success. Greedy repetitions try the longest class run
first and back off one character at a time. -/
def matchItems : List RItem → List Char → Option (List Char)
  | [], _ => some []
  | .lit l :: rest, s =>
    match consumeLit l s with
    | some s2 => matchItems rest s2
    | none => none
  | .star cls :: rest, s =>
    let n := (s.takeWhile cls).length
    firstSome ((List.range (n + 1)).map (fun i => matchItems rest (s.drop (n - i))))
  | .cap cls :: rest, s =>
    let n := (s.takeWhile cls).length
    firstSome ((List.range n).map (fun i =>
      (matchItems rest (s.drop (n - i))).map (fun _ => s.take (n - i))))

/-- Scan the input left to right and return the capture of the first
position where one of the alternative patterns matches (in order). -/
def searchFrom (alts : List (List RItem)) : List Char → Option (List Char)
  | [] => firstSome (alts.map (fun p => matchItems p []))
  | c :: t =>
    match firstSome (alts.map (fun p => matchItems p (c :: t))) with
    | some r => some r
    | none => searchFrom alts t

/-- Character class `[0-9,]`. -/
def isDigitComma (c : Char) : Bool := c.isDigit || c = ','

/-- JavaScript whitespace class `\s` (ASCII part plus NBSP and BOM). -/
def isJsSpace (c : Char) : Bool :=
  c = ' ' || c = '\t' || c = '\n' || c = '\r' ||
  c = Char.ofNat 11 || c = Char.ofNat 12 || c = Char.ofNat 160 || c = Char.ofNat 65279

/-- Class `[^"]`. -/
def notQuote (c : Char) : Bool := !(c = '"')

/-- Class `[^>]`. -/
def notGt (c : Char) : Bool := !(c = '>')

/-- Class `[^0-9]`. -/
def notDigit (c : Char) : Bool := !c.isDigit

/-- Pattern 1, the styled-number span. -/
def navPattern1 : List RItem :=
  [.lit "class=\"".data, .star notQuote, .lit "StyledNumber".data, .star notQuote,
   .lit "\"".data, .star notGt, .lit ">".data, .cap isDigitComma, .lit "</span>".data]

/-- Pattern 2, the yen-suffixed span. -/
def navPattern2 : List RItem :=
  [.lit "<span".data, .star notGt, .lit ">".data, .cap isDigitComma,
   .lit "</span>".data, .star isJsSpace, .lit "円".data]

/-- Pattern 3, the number labelled by 基準価額 and suffixed by 円. -/
def navPattern3 : List RItem :=
  [.lit "基準価額".data, .star notDigit, .cap isDigitComma, .star isJsSpace, .lit "円".data]

/-- Pattern 4, the og:description metadata. -/
def navPattern4 : List RItem :=
  [.lit "content=\"".data, .star notQuote, .lit "基準価額".data, .star isJsSpace,
   .cap isDigitComma]

/-- Pattern 5, first alternative: the `data-price` attribute. -/
def navPattern5a : List RItem :=
  [.lit "data-price=\"".data, .cap isDigitComma, .lit "\"".data]

/-- Pattern 5, second alternative: the `data-value` attribute. -/
def navPattern5b : List RItem :=
  [.lit "data-value=\"".data, .cap isDigitComma, .lit "\"".data]

/-- Strip the comma thousands-separators and parse as `parseFloat` would:
an all-comma capture strips to the empty string, parses to NaN and is
rejected (`none`). Captures come from `[0-9,]`, so the stripped text is a
digit string and parses to its decimal value. -/
def parseCapturedNumber (cs : List Char) : Option ℕ :=
  let digits := cs.filter (fun c => !(c = ','))
  if digits = [] then none
  else if digits.all Char.isDigit then
    some (digits.foldl (fun acc c => acc * 10 + (c.toNat - 48)) 0)
  else none

/-- The five pattern-match results, in source order. -/
def navCandidates (html : String) : List (Option (List Char)) :=
  [searchFrom [navPattern1] html.data,
   searchFrom [navPattern2] html.data,
   searchFrom [navPattern3] html.data,
   searchFrom [navPattern4] html.data,
   searchFrom [navPattern5a, navPattern5b] html.data]

/-- The extraction loop of `fetchMutualFundNAV`: take the first candidate
whose parsed value is strictly positive; skip NaN and non-positive parses. -/
def firstPositiveParse : List (Option (List Char)) → Option ℕ
  | [] => none
  | m :: rest =>
    match m.bind parseCapturedNumber with
    | some v => if 0 < v then some v else firstPositiveParse rest
    | none => firstPositiveParse rest

/-- The NAV-extraction core of `fetchMutualFundNAV` (stockApi.ts lines
141-165): `price` is left 0 and the function returns null exactly when no
pattern yields a strictly positive parse. -/
def extractNAVPrice (html : String) : Option ℕ :=
  firstPositiveParse (navCandidates html)

/-! ## Mutual-fund routing (src/lib/stockApi.ts lines 193-207) -/

/-- Embedding of `isMutualFundCode`: the whole symbol is alphanumeric with
length at least 8, and some character is a letter. -/
def isMutualFundCode (s : String) : Bool :=
  (8 ≤ s.length && s.data.all (fun c => c.isAlphanum)) && s.data.any (fun c => c.isAlpha)

/-- The routing split at the top of `fetchMultipleStockPrices`
(stockApi.ts lines 206-207): mutual-fund path first, equity path second. -/
def splitSymbols (symbols : List String) : List String × List String :=
  (symbols.filter (fun s => isMutualFundCode s),
   symbols.filter (fun s => !isMutualFundCode s))

/-! ## Symbol resolver (portfolio route, `normalizeSymbolForPriceLookup`) -/

/-- The anchored match of `normalizeSymbolForPriceLookup`: four digits, an
optional ASCII letter, then the literal market suffix `.T`; returns the
matched leading code. The optional letter needs no backtracking search: a letter
in fourth-plus-one position can never also start `.T`. -/
def matchTseCode (cs : List Char) : Option (List Char) :=
  match cs with
  | a :: b :: c :: d :: e :: rest =>
    if a.isDigit && b.isDigit && c.isDigit && d.isDigit then
      if e = '.' then
        match rest with
        | f :: _ => if f = 'T' then some [a, b, c, d, '.', 'T'] else none
        | [] => none
      else if e.isAlpha then
        match rest with
        | f :: g :: _ =>
          if f = '.' ∧ g = 'T' then some [a, b, c, d, e, '.', 'T'] else none
        | _ => none
      else none
    else none
  | _ => none

/-- Embedding of `normalizeSymbolForPriceLookup` (part_002 lines 29-32). -/
def normalizeSymbolForPriceLookup (symbol : String) : String :=
  match matchTseCode symbol.data with
  | some p => String.mk p
  | none => symbol

/-- The shape named by the spec: a 4-digit Tokyo-exchange code, an optional
letter, then the `.T` market suffix, at the start of the symbol. -/
def tseShape (cs : List Char) : Prop :=
  ∃ a b c d rest, cs = a :: b :: c :: d :: rest ∧
    (a.isDigit ∧ b.isDigit ∧ c.isDigit ∧ d.isDigit) ∧
    ((∃ t, rest = '.' :: 'T' :: t) ∨ (∃ e t, rest = e :: '.' :: 'T' :: t ∧ e.isAlpha))

/-! ## Degradation controller (portfolio route, price tiers)

The live tier's network results are passed in as an outcome value: `ok m`
is the quote map assembled by steps 2a/2b, `error` means one of the awaited
fetch batches rejected (at which point the map was still empty, since every
per-fund fetch is individually caught and the batch call is the first
write). The cached store read is likewise an outcome. -/

/-- Set a key of the quote map in place, `Map.set` style. -/
def priceMapSet (m : PriceMap) (k : String) (v : PriceEntry) : PriceMap :=
  match m with
  | [] => [(k, v)]
  | (k0, v0) :: rest => if k0 = k then (k, v) :: rest else (k0, v0) :: priceMapSet rest k v

/-- The per-symbol backstop of the live tier (part_002 lines 142-147): every
holding still missing a quote is patched with its cost basis. -/
def patchMissingWithCost (prices : PriceMap) (holdings : List Holding) : PriceMap :=
  holdings.foldl
    (fun m h =>
      if (m.lookup h.symbol).isSome then m
      else priceMapSet m h.symbol { price := h.avgCost, currency := h.currency })
    prices

/-- The cost-basis tier (part_002 lines 156-159): every holding's quote
becomes its own average cost, built on the empty map. -/
def costBasisMapOf (holdings : List Holding) : PriceMap :=
  holdings.foldl
    (fun m h => priceMapSet m h.symbol { price := h.avgCost, currency := h.currency })
    []

/-- The catch branch of the price resolution (part_002 lines 148-161): read
the cached store, and if that also fails fall back to cost basis. -/
def pricesFallback (holdings : List Holding) (cacheOutcome : Except Unit PriceMap) :
    PriceMap × String :=
  match cacheOutcome with
  | .ok cached => (cached, "google_sheets_cache")
  | .error _ => (costBasisMapOf holdings, "avg_cost_fallback")

/-- The three-tier price resolution of the portfolio route (part_002 lines
64-161): live map (throwing when empty, then patched per symbol), else
cached store, else cost basis. Returns the final quote map and the
`priceSource` tag. -/
def resolvePrices (holdings : List Holding) (liveOutcome : Except Unit PriceMap)
    (cacheOutcome : Except Unit PriceMap) : PriceMap × String :=
  match liveOutcome with
  | .ok livePrices =>
    if livePrices.length = 0 then pricesFallback holdings cacheOutcome
    else (patchMissingWithCost livePrices holdings, "yahoo_finance")
  | .error _ => pricesFallback holdings cacheOutcome

/-! ## Per-holding day change (part_002 lines 479-498) -/

/-- The per-holding view built for the frontend by the day-change variant of
the route: previous close is looked up in `previousCloseMap` and falls back
to the current price (`previousCloseMap.get(h.symbol) || currentPrice`). -/
structure HoldingDayView where
  symbol : String
  currentPrice : ℚ
  totalValue : ℚ
  unrealizedPL : ℚ
  unrealizedPLPercent : ℚ
  dayChange : ℚ
  dayChangePercent : ℚ
deriving Repr, DecidableEq

/-- Embedding of the `holdingsWithPrices` map body of the day-change route
variant (part_002 lines 479-498). -/
def buildHoldingDayView (prices : PriceMap) (previousCloseMap : List (String × ℚ))
    (h : Holding) : HoldingDayView :=
  let currentPrice := currentPriceOf prices h
  let prevClose :=
    match previousCloseMap.lookup h.symbol with
    | some v => if v = 0 then currentPrice else v
    | none => currentPrice
  { symbol := h.symbol
    currentPrice := currentPrice
    totalValue := currentPrice * h.quantity
    unrealizedPL := (currentPrice - h.avgCost) * h.quantity
    unrealizedPLPercent :=
      if 0 < h.avgCost then (currentPrice - h.avgCost) / h.avgCost * 100 else 0
    dayChange := (currentPrice - prevClose) * h.quantity
    dayChangePercent :=
      if 0 < prevClose then (currentPrice - prevClose) / prevClose * 100 else 0 }

/-! ## The portfolio route (src/app/api/portfolio/route.ts) -/

/-- The enriched holding view built for the frontend (route.ts lines
120-131). -/
structure RouteHoldingView where
  symbol : String
  currentPrice : ℚ
  totalValue : ℚ
  unrealizedPL : ℚ
  unrealizedPLPercent : ℚ
deriving Repr, DecidableEq

/-- Embedding of the `holdingsWithPrices` map body (route.ts lines 120-131). -/
def buildRouteHoldingView (prices : PriceMap) (h : Holding) : RouteHoldingView :=
  let currentPrice := currentPriceOf prices h
  { symbol := h.symbol
    currentPrice := currentPrice
    totalValue := currentPrice * h.quantity
    unrealizedPL := (currentPrice - h.avgCost) * h.quantity
    unrealizedPLPercent :=
      if 0 < h.avgCost then (currentPrice - h.avgCost) / h.avgCost * 100 else 0 }

/-- The JSON payload of the portfolio route, restricted to the fields the
route always sets. `hasError` models the presence of the `error` field. -/
structure RouteResponse where
  hasError : Bool
  holdings : List RouteHoldingView
  summary : Option PortfolioSummary
  categories : List CategorySummary
  exchangeRate : ℚ
  source : String
  status : ℕ
deriving Repr, DecidableEq

/-- The price-tier resolution of route.ts (lines 44-68): unlike the
day-change variant it neither throws on an empty live map nor patches
missing symbols; the live map is the fetched quotes keyed by symbol. -/
def routeResolvePrices (holdings : List Holding)
    (stockFetchOutcome : Except Unit (List StockQuote))
    (cacheOutcome : Except Unit PriceMap) : PriceMap × String :=
  match stockFetchOutcome with
  | .ok quotes =>
    (quotes.foldl
      (fun m q => priceMapSet m q.symbol { price := q.price, currency := q.currency }) [],
     "yahoo_finance")
  | .error _ => pricesFallback holdings cacheOutcome

/-- Embedding of the route's GET handler (route.ts lines 13-159) as a
function of the outcomes of its external calls. A throwing holdings read is
the only way to reach the outer catch; an empty holdings list returns the
`empty` payload; otherwise the full pipeline runs and returns the `live`
payload with status 200. -/
def portfolioGET (holdingsOutcome : Except Unit (List Holding))
    (stockFetchOutcome : Except Unit (List StockQuote))
    (cacheOutcome : Except Unit PriceMap)
    (primary : FetchOutcome PrimaryRatePayload)
    (secondary : FetchOutcome SecondaryRatePayload)
    (currentYear : ℤ) : RouteResponse :=
  match holdingsOutcome with
  | .error _ =>
    { hasError := true, holdings := [], summary := none, categories := []
      exchangeRate := 150, source := "error", status := 500 }
  | .ok holdings =>
    if holdings.isEmpty then
      { hasError := false, holdings := [], summary := none, categories := []
        exchangeRate := 150, source := "empty", status := 200 }
    else
      let pr := routeResolvePrices holdings stockFetchOutcome cacheOutcome
      let prices := pr.1
      let rate := resolveRateInRoute primary secondary
      let usdJpyRate := rate.1
      let categories := generateCategorySummary holdings [] prices usdJpyRate
      let previousPrices := prices.map (fun p =>
        (p.1, { price := p.2.price * (998 / 1000), currency := p.2.currency }))
      let summary := generatePortfolioSummary holdings [] [] [] prices previousPrices
        usdJpyRate currentYear
      { hasError := false
        holdings := holdings.map (buildRouteHoldingView prices)
        summary := some summary
        categories := categories
        exchangeRate := usdJpyRate
        source := "live"
        status := 200 }

/-! ## Helper lemmas -/

/-- An ASCII digit is never an ASCII letter. -/
theorem isAlpha_eq_false_of_isDigit (c : Char) (h : c.isDigit = true) : c.isAlpha = false := by
  simp only [Char.isDigit, Char.isAlpha, Char.isUpper, Char.isLower, Bool.and_eq_true,
    decide_eq_true_eq, Bool.or_eq_false_iff, Bool.and_eq_false_iff,
    decide_eq_false_iff_not, not_le, UInt32.le_def, UInt32.lt_def,
    BitVec.le_def, BitVec.lt_def, UInt32.toBitVec_ofNat] at h ⊢
  simp only [BitVec.toNat_ofNat] at h ⊢
  omega

/-- Characterization of lookup after a `Map.set`-style update. -/
theorem lookup_priceMapSet (m : PriceMap) (k k2 : String) (v : PriceEntry) :
    (priceMapSet m k v).lookup k2 = if k2 = k then some v else m.lookup k2 := by
  induction m with
  | nil =>
    by_cases h : k2 = k <;> simp [priceMapSet, h]
  | cons p rest ih =>
    obtain ⟨k0, v0⟩ := p
    by_cases h0 : k0 = k
    · subst h0
      by_cases h2 : k2 = k0
      · simp [priceMapSet, List.lookup_cons, h2]
      · simp [priceMapSet, List.lookup_cons, h2, beq_eq_false_iff_ne.mpr h2]
    · by_cases h2 : k2 = k0
      · subst h2
        simp [priceMapSet, if_neg h0, List.lookup_cons, h0]
      · simp [priceMapSet, if_neg h0, List.lookup_cons, h2,
          beq_eq_false_iff_ne.mpr h2, ih]

/-- The per-symbol backstop never removes an existing entry. -/
theorem lookup_patchMissing_isSome (hs : List Holding) (p : PriceMap) (k : String)
    (hk : (p.lookup k).isSome = true) :
    ((patchMissingWithCost p hs).lookup k).isSome = true := by
  induction hs generalizing p with
  | nil => simpa [patchMissingWithCost] using hk
  | cons h0 t ih =>
    show ((patchMissingWithCost (if (p.lookup h0.symbol).isSome then p
      else priceMapSet p h0.symbol { price := h0.avgCost, currency := h0.currency }) t).lookup
        k).isSome = true
    by_cases hp : (p.lookup h0.symbol).isSome = true
    · rw [if_pos hp]
      exact ih p hk
    · rw [if_neg hp]
      apply ih
      rw [lookup_priceMapSet]
      by_cases hkk : k = h0.symbol <;> simp [hkk, hk]

/-- Every processed holding has an entry after the per-symbol backstop. -/
theorem mem_patchMissing_isSome (hs : List Holding) (p : PriceMap) (h : Holding)
    (hmem : h ∈ hs) :
    ((patchMissingWithCost p hs).lookup h.symbol).isSome = true := by
  induction hs generalizing p with
  | nil => cases hmem
  | cons h0 t ih =>
    have hstep : ∀ q : PriceMap, patchMissingWithCost q (h0 :: t) =
        patchMissingWithCost (if (q.lookup h0.symbol).isSome then q
          else priceMapSet q h0.symbol { price := h0.avgCost, currency := h0.currency }) t :=
      fun q => rfl
    rw [hstep]
    rcases List.mem_cons.mp hmem with heq | hmem2
    · subst heq
      apply lookup_patchMissing_isSome
      by_cases hp : (p.lookup h.symbol).isSome = true
      · rw [if_pos hp]
        exact hp
      · rw [if_neg hp, lookup_priceMapSet]
        simp
    · exact ih _ hmem2

/-- The cost-basis fold never removes an existing entry. -/
theorem lookup_costBasisFold_pres (hs : List Holding) (p : PriceMap) (k : String)
    (hk : (p.lookup k).isSome = true) :
    ((hs.foldl (fun m h0 =>
      priceMapSet m h0.symbol { price := h0.avgCost, currency := h0.currency }) p).lookup
        k).isSome = true := by
  induction hs generalizing p with
  | nil => simpa using hk
  | cons h0 t ih =>
    simp only [List.foldl_cons]
    apply ih
    rw [lookup_priceMapSet]
    by_cases hkk : k = h0.symbol <;> simp [hkk, hk]

/-- Every holding has an entry after the cost-basis fold. -/
theorem mem_costBasisFold_isSome (hs : List Holding) (p : PriceMap) (h : Holding)
    (hmem : h ∈ hs) :
    ((hs.foldl (fun m h0 =>
      priceMapSet m h0.symbol { price := h0.avgCost, currency := h0.currency }) p).lookup
        h.symbol).isSome = true := by
  induction hs generalizing p with
  | nil => cases hmem
  | cons h0 t ih =>
    simp only [List.foldl_cons]
    rcases List.mem_cons.mp hmem with heq | hmem2
    · subst heq
      apply lookup_costBasisFold_pres
      rw [lookup_priceMapSet]
      simp
    · exact ih _ hmem2

/-- The parsed value of one NAV candidate, kept only when strictly positive
(the acceptance test of the extraction loop). -/
def navPositiveValue (m : Option (List Char)) : Option ℕ :=
  match m.bind parseCapturedNumber with
  | some v => if 0 < v then some v else none
  | none => none

/-- The extraction loop returns the first candidate accepted by
`navPositiveValue`, in list order. -/
theorem firstPositiveParse_eq_findSome (l : List (Option (List Char))) :
    firstPositiveParse l = l.findSome? navPositiveValue := by
  induction l with
  | nil => rfl
  | cons m rest ih =>
    simp only [firstPositiveParse, List.findSome?_cons, navPositiveValue]
    cases hp : m.bind parseCapturedNumber with
    | none => simpa using ih
    | some v =>
      by_cases hv : 0 < v
      · simp [hv]
      · simp [hv, ih]

/-- Whatever the extraction loop returns is strictly positive. -/
theorem firstPositiveParse_pos (l : List (Option (List Char))) (p : ℕ)
    (h : firstPositiveParse l = some p) : 0 < p := by
  induction l with
  | nil => cases h
  | cons m rest ih =>
    simp only [firstPositiveParse] at h
    split at h
    · split at h
      · rename_i hv
        cases h
        exact hv
      · exact ih h
    · exact ih h

/-! ## Claim theorems -/

/-- Fixture: the end-to-end scenario holding (quantity 100, average cost
2400, JPY). -/
def scenarioHolding : Holding :=
  { id := "1", symbol := "7203.T", name := "トヨタ自動車", category := "domestic_stock"
    quantity := 100, avgCost := 2400, currency := "JPY" }

/-- Fixture: the scenario quote map with price 2856 for the holding. -/
def scenarioPrices : PriceMap := [("7203.T", { price := 2856, currency := "JPY" })]

/-- C1: for every holding valuated by the valuation engine, unrealizedPL is
exactly (currentPrice - avgCost) * quantity, totalValue is exactly
currentPrice * quantity, and unrealizedPLPercent is
unrealizedPL / (avgCost * quantity) * 100 when the cost basis is positive and
0 otherwise; on the scenario holding (quantity 100, avgCost 2400, quote
price 2856) the result is totalValue 285600, unrealizedPL 45600 and
unrealizedPLPercent 19, both in the valuation engine and in the route's
enriched view. -/
theorem valuation_pl_exact (prices : PriceMap) (h : Holding) :
    ((enrichHolding prices h).unrealizedPL =
      ((enrichHolding prices h).currentPrice - h.avgCost) * h.quantity ∧
     (enrichHolding prices h).totalValue = (enrichHolding prices h).currentPrice * h.quantity ∧
     (0 < h.avgCost * h.quantity →
       (enrichHolding prices h).unrealizedPLPercent =
         (enrichHolding prices h).unrealizedPL / (h.avgCost * h.quantity) * 100) ∧
     (¬ 0 < h.avgCost * h.quantity → (enrichHolding prices h).unrealizedPLPercent = 0)) ∧
    ((enrichHolding scenarioPrices scenarioHolding).totalValue = 285600 ∧
     (enrichHolding scenarioPrices scenarioHolding).unrealizedPL = 45600 ∧
     (enrichHolding scenarioPrices scenarioHolding).unrealizedPLPercent = 19 ∧
     (buildRouteHoldingView scenarioPrices scenarioHolding).totalValue = 285600 ∧
     (buildRouteHoldingView scenarioPrices scenarioHolding).unrealizedPL = 45600 ∧
     (buildRouteHoldingView scenarioPrices scenarioHolding).unrealizedPLPercent = 19) := by
  constructor
  · refine ⟨?_, rfl, fun hpos => ?_, fun hneg => ?_⟩
    · show currentPriceOf prices h * h.quantity - h.avgCost * h.quantity =
        (currentPriceOf prices h - h.avgCost) * h.quantity
      ring
    · show (if 0 < h.avgCost * h.quantity
          then (currentPriceOf prices h * h.quantity - h.avgCost * h.quantity) /
            (h.avgCost * h.quantity) * 100 else 0) =
        (currentPriceOf prices h * h.quantity - h.avgCost * h.quantity) /
          (h.avgCost * h.quantity) * 100
      rw [if_pos hpos]
    · show (if 0 < h.avgCost * h.quantity
          then (currentPriceOf prices h * h.quantity - h.avgCost * h.quantity) /
            (h.avgCost * h.quantity) * 100 else 0) = 0
      rw [if_neg hneg]
  · refine ⟨?_, ?_, ?_, ?_, ?_, ?_⟩ <;>
      norm_num [enrichHolding, buildRouteHoldingView, currentPriceOf,
        scenarioPrices, scenarioHolding, List.lookup]

/-- Witness for C1: the percent clause applied to the concrete scenario. -/
theorem valuation_pl_exact_witness :
    (enrichHolding scenarioPrices scenarioHolding).unrealizedPLPercent =
      (enrichHolding scenarioPrices scenarioHolding).unrealizedPL /
        (scenarioHolding.avgCost * scenarioHolding.quantity) * 100 :=
  (valuation_pl_exact scenarioPrices scenarioHolding).1.2.2.1 (by norm_num [scenarioHolding])

/-- C3: the NAV extractor returns exactly the first of its five ordered
pattern candidates whose comma-stripped parse is strictly positive; every
returned value is strictly positive (so a no-match document yields
not-found, never zero); and on a document of the shape 基準価額 12,345 円 it
returns 12345. -/
theorem nav_extractor_cascade :
    (∀ html : String,
      extractNAVPrice html = (navCandidates html).findSome? navPositiveValue) ∧
    (∀ (html : String) (p : ℕ), extractNAVPrice html = some p → 0 < p) ∧
    extractNAVPrice "基準価額 12,345 円" = some 12345 :=
  ⟨fun html => firstPositiveParse_eq_findSome (navCandidates html),
   fun html p h => firstPositiveParse_pos (navCandidates html) p h,
   by decide⟩

/-- Witness for C3: the positivity clause applied to the concrete document. -/
theorem nav_extractor_cascade_witness : 0 < 12345 :=
  nav_extractor_cascade.2.1 "基準価額 12,345 円" 12345 nav_extractor_cascade.2.2

/-- C7: the per-holding day change is computed against the stored previous
close when a nonzero one is present in the previous-close map, and is exactly
zero when the map has no entry for the holding (the baseline then falls back
to the current price). -/
theorem day_change_baseline (prices : PriceMap) (previousCloseMap : List (String × ℚ))
    (h : Holding) :
    (∀ pc : ℚ, previousCloseMap.lookup h.symbol = some pc → pc ≠ 0 →
      (buildHoldingDayView prices previousCloseMap h).dayChange =
        ((buildHoldingDayView prices previousCloseMap h).currentPrice - pc) * h.quantity) ∧
    (previousCloseMap.lookup h.symbol = none →
      (buildHoldingDayView prices previousCloseMap h).dayChange = 0) := by
  constructor
  · intro pc hl hnz
    show (currentPriceOf prices h -
        (match previousCloseMap.lookup h.symbol with
         | some v => if v = 0 then currentPriceOf prices h else v
         | none => currentPriceOf prices h)) * h.quantity =
      (currentPriceOf prices h - pc) * h.quantity
    rw [hl]
    simp [hnz]
  · intro hl
    show (currentPriceOf prices h -
        (match previousCloseMap.lookup h.symbol with
         | some v => if v = 0 then currentPriceOf prices h else v
         | none => currentPriceOf prices h)) * h.quantity = 0
    rw [hl]
    simp

/-- Witness for C7: both clauses at concrete inputs. -/
theorem day_change_baseline_witness :
    (buildHoldingDayView scenarioPrices [("7203.T", (2800 : ℚ))] scenarioHolding).dayChange =
      ((buildHoldingDayView scenarioPrices [("7203.T", (2800 : ℚ))]
        scenarioHolding).currentPrice - 2800) * scenarioHolding.quantity ∧
    (buildHoldingDayView scenarioPrices [] scenarioHolding).dayChange = 0 :=
  ⟨(day_change_baseline scenarioPrices [("7203.T", (2800 : ℚ))] scenarioHolding).1
      2800 rfl (by norm_num),
   (day_change_baseline scenarioPrices [] scenarioHolding).2 rfl⟩

/-- C10: a holding whose symbol maps to a quote with price 0 is valued
identically to one whose symbol is absent from the quote map — the current
price falls back to the average cost in both cases, in the valuation engine
and in the route's enriched view. -/
theorem zero_price_same_as_missing (h : Holding) (prices prices2 : PriceMap) (rate : ℚ)
    (pd : PriceEntry) (hlook : prices.lookup h.symbol = some pd) (hzero : pd.price = 0)
    (habs : prices2.lookup h.symbol = none) :
    currentPriceOf prices h = h.avgCost ∧
    enrichHolding prices h = enrichHolding prices2 h ∧
    holdingValueJPY prices rate h = holdingValueJPY prices2 rate h ∧
    buildRouteHoldingView prices h = buildRouteHoldingView prices2 h := by
  have hc : currentPriceOf prices h = h.avgCost := by
    simp [currentPriceOf, hlook, hzero]
  have hc2 : currentPriceOf prices2 h = h.avgCost := by
    simp [currentPriceOf, habs]
  refine ⟨hc, ?_, ?_, ?_⟩
  · simp [enrichHolding, hc, hc2]
  · simp [holdingValueJPY, hc, hc2]
  · simp [buildRouteHoldingView, hc, hc2]

/-- Witness for C10: a zero-price entry versus the empty map. -/
theorem zero_price_same_as_missing_witness :
    currentPriceOf [("7203.T", { price := 0, currency := "JPY" })] scenarioHolding =
      scenarioHolding.avgCost ∧
    enrichHolding [("7203.T", { price := 0, currency := "JPY" })] scenarioHolding =
      enrichHolding [] scenarioHolding :=
  ⟨(zero_price_same_as_missing scenarioHolding
      [("7203.T", { price := 0, currency := "JPY" })] [] 150
      { price := 0, currency := "JPY" } rfl rfl rfl).1,
   (zero_price_same_as_missing scenarioHolding
      [("7203.T", { price := 0, currency := "JPY" })] [] 150
      { price := 0, currency := "JPY" } rfl rfl rfl).2.1⟩

/-- A successful anchored match implies the spec's code shape. -/
theorem tseShape_of_matchTseCode (cs : List Char) (p : List Char)
    (hm : matchTseCode cs = some p) : tseShape cs := by
  rcases cs with _ | ⟨a, _ | ⟨b, _ | ⟨c, _ | ⟨d, _ | ⟨e, rest⟩⟩⟩⟩⟩
  · simp [matchTseCode] at hm
  · simp [matchTseCode] at hm
  · simp [matchTseCode] at hm
  · simp [matchTseCode] at hm
  · simp [matchTseCode] at hm
  · simp only [matchTseCode] at hm
    by_cases hdig : (a.isDigit && b.isDigit && c.isDigit && d.isDigit) = true
    · rw [if_pos hdig] at hm
      simp only [Bool.and_eq_true] at hdig
      obtain ⟨⟨⟨ha, hb⟩, hc⟩, hd⟩ := hdig
      by_cases he : e = '.'
      · rw [if_pos he] at hm
        rcases rest with _ | ⟨f, r2⟩
        · cases hm
        · by_cases hf : f = 'T'
          · exact ⟨a, b, c, d, e :: f :: r2, rfl, ⟨ha, hb, hc, hd⟩,
              Or.inl ⟨r2, by rw [he, hf]⟩⟩
          · simp [hf] at hm
      · rw [if_neg he] at hm
        by_cases hal : e.isAlpha = true
        · rw [if_pos hal] at hm
          rcases rest with _ | ⟨f, _ | ⟨g, r3⟩⟩
          · cases hm
          · cases hm
          · by_cases hfg : f = '.' ∧ g = 'T'
            · exact ⟨a, b, c, d, e :: f :: g :: r3, rfl, ⟨ha, hb, hc, hd⟩,
                Or.inr ⟨e, r3, by rw [hfg.1, hfg.2], hal⟩⟩
            · simp [hfg] at hm
        · rw [if_neg hal] at hm
          cases hm
    · rw [if_neg hdig] at hm
      cases hm

/-- C6: the symbol resolver strips any broker suffix following a 4-digit
Tokyo-exchange code with optional letter and its `.T` market suffix
(`1234A.T-sbi` and `1234A.T-brokerX` normalize to `1234A.T`), and any symbol
not of that shape — such as `AAPL` — passes through unchanged. -/
theorem symbol_resolver_normalize :
    normalizeSymbolForPriceLookup "1234A.T-sbi" = "1234A.T" ∧
    normalizeSymbolForPriceLookup "1234A.T-brokerX" = "1234A.T" ∧
    normalizeSymbolForPriceLookup "AAPL" = "AAPL" ∧
    (∀ a b c d : Char, a.isDigit = true → b.isDigit = true → c.isDigit = true →
      d.isDigit = true → ∀ t : List Char,
      normalizeSymbolForPriceLookup ⟨a :: b :: c :: d :: '.' :: 'T' :: t⟩ =
        ⟨[a, b, c, d, '.', 'T']⟩) ∧
    (∀ a b c d e : Char, a.isDigit = true → b.isDigit = true → c.isDigit = true →
      d.isDigit = true → e.isAlpha = true → ∀ t : List Char,
      normalizeSymbolForPriceLookup ⟨a :: b :: c :: d :: e :: '.' :: 'T' :: t⟩ =
        ⟨[a, b, c, d, e, '.', 'T']⟩) ∧
    (∀ s : String, ¬ tseShape s.data → normalizeSymbolForPriceLookup s = s) := by
  refine ⟨by decide, by decide, by decide, ?_, ?_, ?_⟩
  · intro a b c d ha hb hc hd t
    simp [normalizeSymbolForPriceLookup, matchTseCode, ha, hb, hc, hd]
  · intro a b c d e ha hb hc hd hal t
    have hne : ¬ e = '.' := by
      intro hcon
      rw [hcon] at hal
      exact absurd hal (by decide)
    simp [normalizeSymbolForPriceLookup, matchTseCode, ha, hb, hc, hd, hne, hal]
  · intro s hshape
    unfold normalizeSymbolForPriceLookup
    cases hm : matchTseCode s.data with
    | none => rfl
    | some p => exact absurd (tseShape_of_matchTseCode s.data p hm) hshape

/-- Witness for C6: the strip clauses at concrete digits and suffix, and the
passthrough clause at `AAPL`. -/
theorem symbol_resolver_normalize_witness :
    normalizeSymbolForPriceLookup ⟨['7', '0', '3', '4', '.', 'T', '-', 's', 'b', 'i']⟩ =
      ⟨['7', '0', '3', '4', '.', 'T']⟩ ∧
    normalizeSymbolForPriceLookup ⟨['5', '6', '7', '8', 'B', '.', 'T', '-', 'x']⟩ =
      ⟨['5', '6', '7', '8', 'B', '.', 'T']⟩ ∧
    normalizeSymbolForPriceLookup "AAPL" = "AAPL" := by
  refine ⟨symbol_resolver_normalize.2.2.2.1 '7' '0' '3' '4' (by decide) (by decide)
      (by decide) (by decide) ['-', 's', 'b', 'i'],
    symbol_resolver_normalize.2.2.2.2.1 '5' '6' '7' '8' 'B' (by decide) (by decide)
      (by decide) (by decide) (by decide) ['-', 'x'],
    symbol_resolver_normalize.2.2.2.2.2 "AAPL" ?_⟩
  rintro ⟨a, b, c, d, rest, heq, ⟨hda, _⟩, _⟩
  have hdata : "AAPL".data = ['A', 'A', 'P', 'L'] := rfl
  rw [hdata] at heq
  simp only [List.cons.injEq] at heq
  rw [← heq.1] at hda
  exact absurd hda (by decide)

/-- A negated Bool being true means the Bool is false. -/
theorem bool_of_not_eq_true {b : Bool} (h : (!b) = true) : b = false := by
  cases b
  · rfl
  · cases h

/-- C5: the exchange-rate resolver falls through to the secondary provider on
any primary failure (thrown fetch, not-ok response, unsuccessful or
JPY-less payload) and returns the secondary's rate with its source tag; when
both providers fail the route resolves the rate to 150 with the "default"
source tag. -/
theorem exchange_rate_fallback_chain :
    (∀ (prim : FetchOutcome PrimaryRatePayload) (p : SecondaryRatePayload),
      primaryFails prim = true → jpyTruthy p.ratesJPY = true →
      fetchUsdJpyRate prim (.ok p) =
        some { rate := p.ratesJPY.getD 0, date := p.date, source := "frankfurter.app" } ∧
      resolveRateInRoute prim (.ok p) = (p.ratesJPY.getD 0, "frankfurter.app")) ∧
    (∀ (prim : FetchOutcome PrimaryRatePayload) (sec : FetchOutcome SecondaryRatePayload),
      primaryFails prim = true → secondaryFails sec = true →
      fetchUsdJpyRate prim sec = none ∧
      resolveRateInRoute prim sec = (150, "default")) := by
  constructor
  · intro prim p hpf htr
    have halt : fetchFromAlternativeApi (.ok p) =
        some { rate := p.ratesJPY.getD 0, date := p.date, source := "frankfurter.app" } := by
      simp [fetchFromAlternativeApi, htr]
    cases prim with
    | err => exact ⟨halt, by simp [resolveRateInRoute, fetchUsdJpyRate, halt]⟩
    | notOk => exact ⟨halt, by simp [resolveRateInRoute, fetchUsdJpyRate, halt]⟩
    | ok pp =>
      have hcond : (pp.success && jpyTruthy pp.ratesJPY) = false := bool_of_not_eq_true hpf
      constructor
      · simp [fetchUsdJpyRate, hcond, halt]
      · simp [resolveRateInRoute, fetchUsdJpyRate, hcond, halt]
  · intro prim sec hpf hsf
    have halt : fetchFromAlternativeApi sec = none := by
      cases sec with
      | err => rfl
      | notOk => rfl
      | ok p =>
        have : jpyTruthy p.ratesJPY = false := bool_of_not_eq_true hsf
        simp [fetchFromAlternativeApi, this]
    have hfetch : fetchUsdJpyRate prim sec = none := by
      cases prim with
      | err => exact halt
      | notOk => exact halt
      | ok pp =>
        have hcond : (pp.success && jpyTruthy pp.ratesJPY) = false := bool_of_not_eq_true hpf
        simp [fetchUsdJpyRate, hcond, halt]
    exact ⟨hfetch, by simp [resolveRateInRoute, hfetch]⟩

/-- Witness for C5: a not-ok primary with a live secondary payload, and a
thrown primary with a thrown secondary. -/
theorem exchange_rate_fallback_chain_witness :
    (fetchUsdJpyRate .notOk (.ok { ratesJPY := some 152, date := "2025-01-01" }) =
      some { rate := 152, date := "2025-01-01", source := "frankfurter.app" } ∧
     resolveRateInRoute .notOk (.ok { ratesJPY := some 152, date := "2025-01-01" }) =
      (152, "frankfurter.app")) ∧
    (fetchUsdJpyRate .err .err = none ∧
     resolveRateInRoute .err .err = (150, "default")) :=
  ⟨exchange_rate_fallback_chain.1 .notOk { ratesJPY := some 152, date := "2025-01-01" }
      rfl (by norm_num [jpyTruthy]),
   exchange_rate_fallback_chain.2 .err .err rfl rfl⟩

/-- C9: a symbol is routed to the mutual-fund NAV path exactly when it is
alphanumeric, at least 8 characters long and contains a letter; a purely
numeric symbol of any length (such as the 8-digit fund code 47316169) goes
to the equity path; and every symbol goes to exactly one of the two paths. -/
theorem mutual_fund_routing (symbols : List String) (s : String) (hs : s ∈ symbols) :
    ((s ∈ (splitSymbols symbols).1) ↔
      (8 ≤ s.length ∧ (∀ c ∈ s.data, c.isAlphanum = true) ∧ ∃ c ∈ s.data, c.isAlpha = true)) ∧
    ((∀ c ∈ s.data, c.isDigit = true) → s ∈ (splitSymbols symbols).2) ∧
    (((s ∈ (splitSymbols symbols).1) ∧ s ∉ (splitSymbols symbols).2) ∨
      ((s ∈ (splitSymbols symbols).2) ∧ s ∉ (splitSymbols symbols).1)) ∧
    ("47316169" ∈ (splitSymbols ["47316169"]).2 ∧
      "47316169" ∉ (splitSymbols ["47316169"]).1) := by
  have hiff : isMutualFundCode s = true ↔
      (8 ≤ s.length ∧ (∀ c ∈ s.data, c.isAlphanum = true) ∧ ∃ c ∈ s.data, c.isAlpha = true) := by
    simp only [isMutualFundCode, Bool.and_eq_true, List.all_eq_true, List.any_eq_true,
      decide_eq_true_eq]
    tauto
  refine ⟨?_, ?_, ?_, ?_⟩
  · rw [splitSymbols]
    simp only [List.mem_filter, hs, true_and]
    exact hiff
  · intro hdig
    have hnof : isMutualFundCode s = false := by
      cases hb : isMutualFundCode s with
      | false => rfl
      | true =>
        obtain ⟨_, _, c, hcmem, hcal⟩ := hiff.mp hb
        rw [isAlpha_eq_false_of_isDigit c (hdig c hcmem)] at hcal
        cases hcal
    rw [splitSymbols]
    simp [List.mem_filter, hs, hnof]
  · cases hb : isMutualFundCode s with
    | true =>
      left
      constructor
      · rw [splitSymbols]
        simp [List.mem_filter, hs, hb]
      · rw [splitSymbols]
        simp [List.mem_filter, hb]
    | false =>
      right
      constructor
      · rw [splitSymbols]
        simp [List.mem_filter, hs, hb]
      · rw [splitSymbols]
        simp [List.mem_filter, hb]
  · constructor
    · rw [splitSymbols]
      simp [List.mem_filter, isMutualFundCode]
    · rw [splitSymbols]
      simp [List.mem_filter, isMutualFundCode]

/-- Witness for C9: the purely-numeric clause applied to the 8-digit fund
code routed to the equity path. -/
theorem mutual_fund_routing_witness :
    "47316169" ∈ (splitSymbols ["47316169"]).2 :=
  (mutual_fund_routing ["47316169"] "47316169" (by simp)).2.1 (by decide)

/-- C2 counterexample: with one holding, a live tier that fails and a cache
read that succeeds with a map lacking the holding's symbol, the final quote
map handed to the valuation step has no entry for that holding — the cache
tier has no backstop, so the claimed universal coverage is false. -/
theorem degradation_cache_tier_gap :
    (resolvePrices [scenarioHolding] (Except.error ()) (Except.ok [])).1.lookup
      scenarioHolding.symbol = none ∧
    (resolvePrices [scenarioHolding] (Except.error ()) (Except.ok [])).2 =
      "google_sheets_cache" :=
  ⟨rfl, rfl⟩

/-- C2 (amended): the final quote map contains an entry for every holding's
symbol whenever the resolution ends in the live tier (per-symbol backstop) or
the cost-basis tier (full rebuild); in the cache tier the map is exactly the
cached store's map and may omit holdings. -/
theorem degradation_coverage_live_and_costbasis (holdings : List Holding)
    (live cache : Except Unit PriceMap) (h : Holding) (hmem : h ∈ holdings)
    (htier : (resolvePrices holdings live cache).2 = "yahoo_finance" ∨
      (resolvePrices holdings live cache).2 = "avg_cost_fallback") :
    ((resolvePrices holdings live cache).1.lookup h.symbol).isSome = true := by
  have hfall : ∀ hcb : cache = Except.error (),
      ((pricesFallback holdings cache).1.lookup h.symbol).isSome = true := by
    intro hcb
    subst hcb
    exact mem_costBasisFold_isSome holdings [] h hmem
  cases live with
  | error e =>
    cases cache with
    | error e2 => exact hfall rfl
    | ok cached =>
      rcases htier with ht | ht
      · exact absurd (show ("google_sheets_cache" : String) = "yahoo_finance" from ht)
          (by decide)
      · exact absurd (show ("google_sheets_cache" : String) = "avg_cost_fallback" from ht)
          (by decide)
  | ok m =>
    by_cases hlen : m.length = 0
    · have hred : resolvePrices holdings (Except.ok m) cache =
          pricesFallback holdings cache := by
        simp [resolvePrices, hlen]
      rw [hred] at htier ⊢
      cases cache with
      | error e2 => exact hfall rfl
      | ok cached =>
        rcases htier with ht | ht
        · exact absurd (show ("google_sheets_cache" : String) = "yahoo_finance" from ht)
            (by decide)
        · exact absurd (show ("google_sheets_cache" : String) = "avg_cost_fallback" from ht)
            (by decide)
    · have hred : resolvePrices holdings (Except.ok m) cache =
          (patchMissingWithCost m holdings, "yahoo_finance") := by
        simp [resolvePrices, hlen]
      rw [hred]
      exact mem_patchMissing_isSome holdings m h hmem

/-- Witness for C2's amended theorem: one holding, failed live tier, failed
cache read — the cost-basis tier covers the holding. -/
theorem degradation_coverage_live_and_costbasis_witness :
    ((resolvePrices [scenarioHolding] (Except.error ()) (Except.error ())).1.lookup
      scenarioHolding.symbol).isSome = true :=
  degradation_coverage_live_and_costbasis [scenarioHolding] (Except.error ())
    (Except.error ()) scenarioHolding (by simp) (Or.inr rfl)

/-- The grand total over all categories: the sum of the category-totals
map's values, as computed inside `generateCategorySummary`. -/
def categoryGrandTotal (holdings : List Holding) (otherAssets : List OtherAsset)
    (prices : PriceMap) (usdJpyRate : ℚ) : ℚ :=
  ((categoryTotalsOf holdings otherAssets prices usdJpyRate).map (fun p => p.2)).sum

/-- Dividing and scaling distributes over a list sum. -/
theorem sum_map_div_mul (l : List (String × ℚ)) (g : ℚ) :
    (l.map (fun p => p.2 / g * 100)).sum = (l.map (fun p => p.2)).sum / g * 100 := by
  induction l with
  | nil => simp
  | cons p rest ih =>
    simp only [List.map_cons, List.sum_cons, ih]
    ring

/-- The sorted summary list is a permutation of the category-totals map with
percentages attached. -/
theorem generateCategorySummary_perm (holdings : List Holding)
    (otherAssets : List OtherAsset) (prices : PriceMap) (rate : ℚ) :
    (generateCategorySummary holdings otherAssets prices rate).Perm
      ((categoryTotalsOf holdings otherAssets prices rate).map (fun p =>
        ({ category := p.1
           label := ((categoryConfig p.1).getD (p.1, "#888")).1
           value := p.2
           valueJPY := p.2
           percentage := if 0 < categoryGrandTotal holdings otherAssets prices rate
             then p.2 / categoryGrandTotal holdings otherAssets prices rate * 100 else 0
           color := ((categoryConfig p.1).getD (p.1, "#888")).2 } : CategorySummary))) :=
  List.mergeSort_perm _ _

/-- C4: the category summary percentages sum to 100 (within plus or minus
0.01, in fact exactly) whenever the grand total over all categories is
strictly positive, and every category percentage is 0 when the grand total
is 0. -/
theorem category_percentages_sum (holdings : List Holding) (otherAssets : List OtherAsset)
    (prices : PriceMap) (rate : ℚ) :
    (0 < categoryGrandTotal holdings otherAssets prices rate →
      |((generateCategorySummary holdings otherAssets prices rate).map
          (fun c => c.percentage)).sum - 100| ≤ 1 / 100) ∧
    (categoryGrandTotal holdings otherAssets prices rate = 0 →
      ∀ c ∈ generateCategorySummary holdings otherAssets prices rate, c.percentage = 0) := by
  have hperm := generateCategorySummary_perm holdings otherAssets prices rate
  constructor
  · intro hpos
    have hsum := (hperm.map (fun c => c.percentage)).sum_eq
    rw [hsum, List.map_map]
    simp only [Function.comp_def, if_pos hpos]
    rw [sum_map_div_mul]
    show |categoryGrandTotal holdings otherAssets prices rate /
      categoryGrandTotal holdings otherAssets prices rate * 100 - 100| ≤ 1 / 100
    rw [div_self hpos.ne']
    norm_num
  · intro hz c hc
    have hc2 := hperm.mem_iff.mp hc
    obtain ⟨p, hp, hrow⟩ := List.mem_map.mp hc2
    rw [← hrow]
    simp [hz]

/-- Witness for C4: both clauses, at a one-holding portfolio with positive
grand total and at the empty portfolio with zero grand total. -/
theorem category_percentages_sum_witness :
    (0 < categoryGrandTotal [scenarioHolding] [] scenarioPrices 150 ∧
     |((generateCategorySummary [scenarioHolding] [] scenarioPrices 150).map
         (fun c => c.percentage)).sum - 100| ≤ 1 / 100) ∧
    (categoryGrandTotal [] [] [] 150 = 0 ∧
     ∀ c ∈ generateCategorySummary [] ([] : List OtherAsset) [] 150, c.percentage = 0) := by
  have hpos : 0 < categoryGrandTotal [scenarioHolding] [] scenarioPrices 150 := by
    have hval : categoryGrandTotal [scenarioHolding] [] scenarioPrices 150 =
        holdingValueJPY scenarioPrices 150 scenarioHolding := by
      norm_num [categoryGrandTotal, categoryTotalsOf, accumulateTotal, alistSet]
    rw [hval, holdingValueJPY]
    rw [if_neg (by decide : ¬ scenarioHolding.currency = "USD")]
    norm_num [currentPriceOf, scenarioPrices, scenarioHolding, List.lookup]
  exact ⟨⟨hpos, (category_percentages_sum [scenarioHolding] [] scenarioPrices 150).1 hpos⟩,
    ⟨rfl, (category_percentages_sum [] [] [] 150).2 rfl⟩⟩

/-- C8: when the holdings read throws (the only fatal condition in the
route), the caller gets an explicit error payload with safe defaults —
empty holdings, empty categories, null summary, exchange rate 150 and
status 500 — and in every non-fatal case the caller gets a structurally
valid snapshot: no error field, status 200, and source `empty` or `live`. -/
theorem route_total_failure_defaults
    (stockF : Except Unit (List StockQuote)) (cacheO : Except Unit PriceMap)
    (prim : FetchOutcome PrimaryRatePayload) (sec : FetchOutcome SecondaryRatePayload)
    (year : ℤ) :
    (portfolioGET (Except.error ()) stockF cacheO prim sec year =
      { hasError := true, holdings := [], summary := none, categories := []
        exchangeRate := 150, source := "error", status := 500 }) ∧
    (∀ hs : List Holding,
      (portfolioGET (Except.ok hs) stockF cacheO prim sec year).hasError = false ∧
      (portfolioGET (Except.ok hs) stockF cacheO prim sec year).status = 200 ∧
      ((portfolioGET (Except.ok hs) stockF cacheO prim sec year).source = "empty" ∨
       (portfolioGET (Except.ok hs) stockF cacheO prim sec year).source = "live")) := by
  constructor
  · rfl
  · intro hs
    by_cases he : hs.isEmpty
    · refine ⟨?_, ?_, Or.inl ?_⟩ <;> simp [portfolioGET, he]
    · refine ⟨?_, ?_, Or.inr ?_⟩ <;> simp [portfolioGET, he]
